import Mathlib

/-!
Shallow embedding of the pico_flexx_driver frame pipeline
(src/src/pico_flexx_driver.cpp).

Floating-point values are modelled by `F`: either a NaN or an exact
rational value.  The driver only compares floats (`noise < maxNoise`),
copies them verbatim, and writes the literal constants `0.0f` and
quiet NaN, so this model captures every float operation the claims
touch.  IEEE comparison semantics (NaN incomparable) are preserved.
-/

namespace PicoFlexx

/-- A float32 value: NaN or an exact numeric value. -/
inductive F where
  | nan : F
  | val : ℚ → F
deriving DecidableEq, Repr

/-- IEEE `<` on floats: false whenever either side is NaN. -/
def F.lt : F → F → Bool
  | F.val a, F.val b => decide (a < b)
  | _, _ => false

/-- IEEE `>=` on floats: false whenever either side is NaN. -/
def F.ge : F → F → Bool
  | F.val a, F.val b => decide (b ≤ a)
  | _, _ => false

/-- royale::DepthPoint: one raw sensor point.  `depthConfidence` is used by
the driver only as a truth value (line 814), so it is modelled as `Bool`;
`grayValue` is a uint16, modelled as `Nat`. -/
structure DepthPoint where
  x : F
  y : F
  z : F
  noise : F
  grayValue : Nat
  depthConfidence : Bool
deriving DecidableEq, Repr

/-- royale::DepthData: one raw frame (the RawFrame of the spec). -/
structure DepthData where
  version : Nat
  timeStamp : Nat
  width : Nat
  height : Nat
  exposureTimes : List Nat
  points : List DepthPoint
deriving DecidableEq, Repr

/-- std_msgs::Header as filled in extractData (lines 728-731). -/
structure Header where
  frame_id : String
  seq : Nat
  stamp : Nat
deriving DecidableEq, Repr

/-- sensor_msgs::Image carrying float32 pixels (depth / noise images). -/
structure FloatImage where
  header : Header
  height : Nat
  width : Nat
  is_bigendian : Bool
  encoding : String
  step : Nat
  data : List F
deriving DecidableEq, Repr

/-- sensor_msgs::Image carrying uint16 pixels (mono16 image). -/
structure Mono16Image where
  header : Header
  height : Nat
  width : Nat
  is_bigendian : Bool
  encoding : String
  step : Nat
  data : List Nat
deriving DecidableEq, Repr

/-- One 5-float record of the point cloud: x, y, z, noise, intensity
(lines 777-797 define this layout). -/
structure CloudPoint where
  x : F
  y : F
  z : F
  noise : F
  intensity : F
deriving DecidableEq, Repr

/-- sensor_msgs::PointCloud2 with the record layout of lines 770-798. -/
structure PointCloud2 where
  header : Header
  height : Nat
  width : Nat
  is_bigendian : Bool
  is_dense : Bool
  point_step : Nat
  row_step : Nat
  fields : List (String × Nat)
  data : List CloudPoint
deriving DecidableEq, Repr

/-- sensor_msgs::CameraInfo (intrinsics cached at initialization). -/
structure CameraInfoMsg where
  header : Header
  height : Nat
  width : Nat
  distortion_model : String
  K : List F
  R : List F
  P : List F
  D : List F
deriving DecidableEq, Repr

/-- The five reused output messages of the processing thread. -/
structure Msgs where
  cameraInfo : CameraInfoMsg
  mono16 : Mono16Image
  depth : FloatImage
  noise : FloatImage
  cloud : PointCloud2
deriving DecidableEq, Repr

/-- Topic indices of the `Topics` enum (lines 105-113). -/
def CAMERA_INFO : Nat := 0

/-- MONO_16 topic index. -/
def MONO_16 : Nat := 1

/-- DEPTH topic index. -/
def DEPTH : Nat := 2

/-- NOISE topic index. -/
def NOISE : Nat := 3

/-- CLOUD topic index. -/
def CLOUD : Nat := 4

/-- Read one entry of the `status` vector (subscriber flags). -/
def statusAt (status : List Bool) (i : Nat) : Bool := status.getD i false

/-- The per-point validity test of line 814:
`itI->depthConfidence && itI->noise < maxNoise`. -/
def pointValid (maxNoise : F) (p : DepthPoint) : Bool :=
  p.depthConfidence && F.lt p.noise maxNoise

/-- One pass of the loop body (lines 810-834) for one point: the cloud
record, the depth pixel, the noise pixel and the mono16 pixel written at
that point's index. -/
def extractPoint (maxNoise : F) (p : DepthPoint) : CloudPoint × F × F × Nat :=
  if pointValid maxNoise p then
    (⟨p.x, p.y, p.z, p.noise, F.val p.grayValue⟩, p.z, p.noise, p.grayValue)
  else
    (⟨F.nan, F.nan, F.nan, F.val 0, F.val p.grayValue⟩, F.nan, F.val 0, p.grayValue)

/-- The header built at lines 728-731 (PF_TF_OPT_FRAME suffix). -/
def mkHeader (baseNameTF : String) (d : DepthData) : Header :=
  ⟨baseNameTF ++ "_optical_frame", 0, d.timeStamp⟩

/-- The cloud field layout of lines 777-797: (name, byte offset). -/
def cloudFields : List (String × Nat) :=
  [("x", 0), ("y", 4), ("z", 8), ("noise", 12), ("intensity", 16)]

/-- PicoFlexx::extractData (lines 725-835).  Takes the subscriber-status
vector, the noise threshold, the cached camera intrinsics, the TF base
name, the raw frame and the current (reused) output messages; returns the
updated output messages.  When no point-level channel is subscribed it
returns after the CameraInfo block (lines 741-744). -/
def extractData (status : List Bool) (maxNoise : F) (cameraInfo : CameraInfoMsg)
    (baseNameTF : String) (d : DepthData) (msgs : Msgs) : Msgs :=
  let hdr := mkHeader baseNameTF d
  let msgs1 :=
    if statusAt status CAMERA_INFO then
      { msgs with cameraInfo :=
        { cameraInfo with header := hdr, height := d.height, width := d.width } }
    else msgs
  if !(statusAt status MONO_16 || statusAt status DEPTH ||
       statusAt status NOISE || statusAt status CLOUD) then
    msgs1
  else
    let pts := d.points.map (extractPoint maxNoise)
    { cameraInfo := msgs1.cameraInfo
      mono16 :=
        { header := hdr, height := d.height, width := d.width,
          is_bigendian := false, encoding := "mono16",
          step := 2 * d.width, data := pts.map (fun q => q.2.2.2) }
      depth :=
        { header := hdr, height := d.height, width := d.width,
          is_bigendian := false, encoding := "32FC1",
          step := 4 * d.width, data := pts.map (fun q => q.2.1) }
      noise :=
        { header := hdr, height := d.height, width := d.width,
          is_bigendian := false, encoding := "32FC1",
          step := 4 * d.width, data := pts.map (fun q => q.2.2.1) }
      cloud :=
        { header := hdr, height := d.height, width := d.width,
          is_bigendian := false, is_dense := false,
          point_step := 20, row_step := 20 * d.width,
          fields := cloudFields, data := pts.map (fun q => q.1) } }

/-! ### Frame Exchange Slot (onNewData, lines 207-226 / process, lines 694-707) -/

/-- The single-slot frame exchange: the `data` unique_ptr and the `newData`
flag, both guarded by `lockData` in the source. -/
structure Slot where
  data : Option DepthData
  newData : Bool
deriving DecidableEq, Repr

/-- PicoFlexx::onNewData (lines 207-226): copy the incoming frame into the
slot, overwriting any undelivered one, and raise `newData`. -/
def deposit (s : Slot) (f : DepthData) : Slot :=
  { data := some f, newData := true }

/-- The consumer side of the slot (lines 694-707): if `newData` is up the
wait succeeds, the frame is swapped out and `newData` lowered; otherwise
the timed wait ends with no frame. -/
def take (s : Slot) : Option DepthData × Slot :=
  if s.newData then (s.data, { data := none, newData := false })
  else (none, s)

/-- Fold a burst of deposits into the slot. -/
def depositAll (s : Slot) (fs : List DepthData) : Slot :=
  fs.foldl deposit s

/-! ### Liveness counters and processing loop (lines 137-147, 354-360, 671-723) -/

/-- `static const int startup_ignore_iters = 15;` (line 145). -/
def startup_ignore_iters : Nat := 15

/-- `static const int dropout_allow_iters = 5;` (line 147). -/
def dropout_allow_iters : Nat := 5

/-- PicoFlexx::isCurrent (lines 354-360). -/
def isCurrent (iters_since_data iters_since_start : Nat) : Bool :=
  decide (iters_since_data < dropout_allow_iters) ||
  decide (iters_since_start < startup_ignore_iters)

/-- The startup-counter update of lines 688-692:
`if (iters_since_start <= startup_ignore_iters) iters_since_start++;`. -/
def stepStart (n : Nat) : Nat :=
  if n ≤ startup_ignore_iters then n + 1 else n

/-- State of the processing loop: the shared slot plus both liveness
counters. -/
structure ProcState where
  slot : Slot
  iters_since_start : Nat
  iters_since_data : Nat
deriving DecidableEq, Repr

/-- State after initialize() (lines 444-445): both counters zero, slot
empty. -/
def initState : ProcState :=
  ⟨⟨none, false⟩, 0, 0⟩

/-- One iteration of the processing loop body (lines 686-722): advance the
startup counter; then either the timed wait times out (`newData` down:
bump `iters_since_data`, process nothing) or a frame is taken (`newData`
up: reset `iters_since_data` to zero and hand the frame to extraction).
Returns the new state and the frame processed this iteration, if any. -/
def processIter (st : ProcState) : ProcState × Option DepthData :=
  let st1 := { st with iters_since_start := stepStart st.iters_since_start }
  if st1.slot.newData then
    let r := take st1.slot
    ({ st1 with slot := r.2, iters_since_data := 0 }, r.1)
  else
    ({ st1 with iters_since_data := st1.iters_since_data + 1 }, none)

/-- An event of the concurrent system: a sensor-callback deposit or one
processing-loop iteration. -/
inductive Ev where
  | dep (f : DepthData) : Ev
  | tick : Ev
deriving DecidableEq, Repr

/-- Interleaved execution of sensor callback and processing loop. -/
def sysStep (st : ProcState) : Ev → ProcState
  | Ev.dep f => { st with slot := deposit st.slot f }
  | Ev.tick => (processIter st).1

/-- Run a trace of events from a state. -/
def sysRun (st : ProcState) (evs : List Ev) : ProcState :=
  evs.foldl sysStep st

/-! ### Capture Activation Controller (callbackTopicStatus, lines 246-284) -/

/-- A start or stop request issued to the sensor capability. -/
inductive CaptureReq where
  | start : CaptureReq
  | stop : CaptureReq
deriving DecidableEq, Repr

/-- The per-topic status update of lines 250-254:
`status[i] = publisher[i].getNumSubscribers() > 0`. -/
def updateStatus (subs : List Nat) : List Bool :=
  subs.map (fun n => decide (0 < n))

/-- `clientsConnected` (lines 249-254): OR over the per-topic flags. -/
def clientsConnected (subs : List Nat) : Bool :=
  (updateStatus subs).any id

/-- The observable outcome of one callbackTopicStatus invocation. -/
structure TopicStatusResult where
  status : List Bool
  requests : List CaptureReq
  running : Bool
  shutdownRequested : Bool
deriving DecidableEq, Repr

/-- PicoFlexx::callbackTopicStatus (lines 246-284).  `subs` is the
subscriber count per topic, `capturing` the device's isCapturing(),
`startOk`/`stopOk` whether startCapture()/stopCapture() would return
SUCCESS, `running` the pipeline flag on entry. -/
def callbackTopicStatus (subs : List Nat) (capturing startOk stopOk running : Bool) :
    TopicStatusResult :=
  let st := updateStatus subs
  if clientsConnected subs && !capturing then
    { status := st, requests := [CaptureReq.start],
      running := if startOk then running else false,
      shutdownRequested := !startOk }
  else if !(clientsConnected subs) && capturing then
    { status := st, requests := [CaptureReq.stop],
      running := if stopOk then running else false,
      shutdownRequested := !stopOk }
  else
    { status := st, requests := [], running := running,
      shutdownRequested := false }

/-! ### Runtime Configuration Store, exposure_time branch
(setExposure, lines 596-614 / callbackConfig, lines 315-324) -/

/-- royale::ExposureMode. -/
inductive ExposureMode where
  | automatic : ExposureMode
  | manual : ExposureMode
deriving DecidableEq, Repr

/-- PicoFlexx::setExposure (lines 596-614): reject a value outside the
device's exposure limits; otherwise attempt setExposureTime on the device
(`deviceOk` is whether that call returns SUCCESS). -/
def setExposure (limits : Nat × Nat) (deviceOk : Bool) (exposure : Nat) : Bool :=
  if exposure < limits.1 || limits.2 < exposure then false
  else deviceOk

/-- The `level & 0x04` branch of PicoFlexx::callbackConfig (lines
315-324): if the mode is automatic or setExposure fails, revert the
caller's proposal to the committed value and leave the store unchanged;
otherwise commit the proposal.  Returns (committed value, caller's value)
after the branch. -/
def callbackConfigExposureTime (limits : Nat × Nat) (mode : ExposureMode)
    (deviceOk : Bool) (proposed committed : Nat) : Nat × Nat :=
  if mode = ExposureMode.automatic || !(setExposure limits deviceOk proposed) then
    (committed, committed)
  else
    (proposed, proposed)

/-! ### Helper lemmas -/

/-- IEEE `>=` implies not `<` (both sides necessarily non-NaN). -/
theorem F_lt_eq_false_of_ge {a b : F} (h : F.ge a b = true) : F.lt a b = false := by
  cases a <;> cases b <;> simp_all [F.ge, F.lt]

/-- Concrete sample camera intrinsics for witnesses. -/
def sampleCI : CameraInfoMsg :=
  ⟨⟨"", 0, 0⟩, 171, 224, "plumb_bob", [], [], [], []⟩

/-- A point passing the validity test for `maxNoise = 7`. -/
def goodPoint : DepthPoint :=
  ⟨F.val 1, F.val 2, F.val 3, F.val 1, 100, true⟩

/-- A point failing the validity test for `maxNoise = 7`. -/
def badPoint : DepthPoint :=
  ⟨F.val 0, F.val 0, F.val 0, F.val 50, 50, true⟩

/-- A 2x1 sample frame (the end-to-end scenario of the spec). -/
def sampleFrame : DepthData :=
  ⟨0, 1000, 2, 1, [1000], [goodPoint, badPoint]⟩

/-- Empty reusable output messages for witnesses. -/
def sampleMsgs : Msgs :=
  ⟨⟨⟨"", 0, 0⟩, 0, 0, "", [], [], [], []⟩,
   ⟨⟨"", 0, 0⟩, 0, 0, false, "", 0, []⟩,
   ⟨⟨"", 0, 0⟩, 0, 0, false, "", 0, []⟩,
   ⟨⟨"", 0, 0⟩, 0, 0, false, "", 0, []⟩,
   ⟨⟨"", 0, 0⟩, 0, 0, false, false, 0, 0, [], []⟩⟩

/-! ### Claims about the Frame Extraction Engine -/

/-- Claim C1: for every raw frame and every point index i in it, if the
point fails the validity test (depthConfidence false, or noise >= maxNoise),
then extraction writes depth = NaN and noise-image value = 0.0 at index i,
cloud x, y, z = NaN and cloud noise field = 0.0 at record i, and the mono16
value and the cloud intensity field equal the input grayValue. -/
theorem extract_invalid_point (status : List Bool) (maxNoise : F)
    (ci : CameraInfoMsg) (tf : String) (d : DepthData) (msgs : Msgs)
    (i : Nat) (p : DepthPoint)
    (hsub : (statusAt status MONO_16 || statusAt status DEPTH ||
             statusAt status NOISE || statusAt status CLOUD) = true)
    (hp : d.points[i]? = some p)
    (hinv : p.depthConfidence = false ∨ F.ge p.noise maxNoise = true) :
    (extractData status maxNoise ci tf d msgs).depth.data[i]? = some F.nan ∧
    (extractData status maxNoise ci tf d msgs).noise.data[i]? = some (F.val 0) ∧
    (extractData status maxNoise ci tf d msgs).cloud.data[i]? =
      some ⟨F.nan, F.nan, F.nan, F.val 0, F.val p.grayValue⟩ ∧
    (extractData status maxNoise ci tf d msgs).mono16.data[i]? =
      some p.grayValue := by
  have hvalid : pointValid maxNoise p = false := by
    unfold pointValid
    rcases hinv with h | h
    · simp [h]
    · simp [F_lt_eq_false_of_ge h]
  unfold extractData
  simp [hsub, List.getElem?_map, hp, extractPoint, hvalid]

/-- Witness for C1 at a concrete frame and index. -/
theorem extract_invalid_point_witness :
    (extractData [false, true, true, true, true] (F.val 7) sampleCI
      "pico_flexx" sampleFrame sampleMsgs).depth.data[1]? = some F.nan ∧
    (extractData [false, true, true, true, true] (F.val 7) sampleCI
      "pico_flexx" sampleFrame sampleMsgs).noise.data[1]? = some (F.val 0) ∧
    (extractData [false, true, true, true, true] (F.val 7) sampleCI
      "pico_flexx" sampleFrame sampleMsgs).cloud.data[1]? =
      some ⟨F.nan, F.nan, F.nan, F.val 0, F.val badPoint.grayValue⟩ ∧
    (extractData [false, true, true, true, true] (F.val 7) sampleCI
      "pico_flexx" sampleFrame sampleMsgs).mono16.data[1]? =
      some badPoint.grayValue :=
  extract_invalid_point [false, true, true, true, true] (F.val 7) sampleCI
    "pico_flexx" sampleFrame sampleMsgs 1 badPoint (by decide) (by decide)
    (Or.inr (by decide))

/-- Claim C2: for every raw frame and every point index i in it, if the
point passes the validity test (depthConfidence true and noise < maxNoise),
then extraction writes depth-image value = input z, noise-image value =
input noise, cloud x, y, z = input x, y, z and cloud noise field = input
noise, all exact copies. -/
theorem extract_valid_point (status : List Bool) (maxNoise : F)
    (ci : CameraInfoMsg) (tf : String) (d : DepthData) (msgs : Msgs)
    (i : Nat) (p : DepthPoint)
    (hsub : (statusAt status MONO_16 || statusAt status DEPTH ||
             statusAt status NOISE || statusAt status CLOUD) = true)
    (hp : d.points[i]? = some p)
    (hconf : p.depthConfidence = true)
    (hnoise : F.lt p.noise maxNoise = true) :
    (extractData status maxNoise ci tf d msgs).depth.data[i]? = some p.z ∧
    (extractData status maxNoise ci tf d msgs).noise.data[i]? = some p.noise ∧
    (extractData status maxNoise ci tf d msgs).cloud.data[i]? =
      some ⟨p.x, p.y, p.z, p.noise, F.val p.grayValue⟩ := by
  have hvalid : pointValid maxNoise p = true := by
    unfold pointValid
    simp [hconf, hnoise]
  unfold extractData
  simp [hsub, List.getElem?_map, hp, extractPoint, hvalid]

/-- Witness for C2 at a concrete frame and index. -/
theorem extract_valid_point_witness :
    (extractData [false, true, true, true, true] (F.val 7) sampleCI
      "pico_flexx" sampleFrame sampleMsgs).depth.data[0]? = some goodPoint.z ∧
    (extractData [false, true, true, true, true] (F.val 7) sampleCI
      "pico_flexx" sampleFrame sampleMsgs).noise.data[0]? = some goodPoint.noise ∧
    (extractData [false, true, true, true, true] (F.val 7) sampleCI
      "pico_flexx" sampleFrame sampleMsgs).cloud.data[0]? =
      some ⟨goodPoint.x, goodPoint.y, goodPoint.z, goodPoint.noise,
            F.val goodPoint.grayValue⟩ :=
  extract_valid_point [false, true, true, true, true] (F.val 7) sampleCI
    "pico_flexx" sampleFrame sampleMsgs 0 goodPoint (by decide) (by decide)
    (by decide) (by decide)

/-! ### Claim about the Liveness Supervisor predicate -/

/-- Claim C4: isCurrent reports stalled (false) iff iters_since_data has
reached dropout_allow_iters and iters_since_start has reached
startup_ignore_iters; in every other counter state it reports current. -/
theorem isCurrent_stalled_iff (iters_since_data iters_since_start : Nat) :
    isCurrent iters_since_data iters_since_start = false ↔
      (dropout_allow_iters ≤ iters_since_data ∧
       startup_ignore_iters ≤ iters_since_start) := by
  unfold isCurrent
  constructor
  · intro h
    simp only [Bool.or_eq_false_iff, decide_eq_false_iff_not, not_lt] at h
    exact h
  · intro h
    simp only [Bool.or_eq_false_iff, decide_eq_false_iff_not, not_lt]
    exact h

/-! ### Claims about the Frame Exchange Slot -/

/-- A burst of deposits leaves the slot holding exactly the last frame,
with `newData` raised. -/
theorem depositAll_eq (s : Slot) (fs : List DepthData) (h : fs ≠ []) :
    depositAll s fs = ⟨some (fs.getLast h), true⟩ := by
  induction fs generalizing s with
  | nil => exact absurd rfl h
  | cons f fs ih =>
    cases fs with
    | nil => simp [depositAll, deposit]
    | cons g gs =>
      have hstep : depositAll s (f :: g :: gs) = depositAll (deposit s f) (g :: gs) := rfl
      rw [hstep, List.getLast_cons (by simp)]
      exact ih (deposit s f) (by simp)

/-- A second sample frame for the slot witness. -/
def sampleFrame2 : DepthData :=
  ⟨0, 2000, 2, 1, [1000], [badPoint, goodPoint]⟩

/-- Claim C3: the frame exchange slot is latest-wins.  After any burst of
deposits into any slot state, the next successful take observes exactly
the last deposited frame (an overwritten frame is never observed, and the
burst is never lost entirely), and a second take yields nothing until a
new deposit occurs (the consumer never receives both). -/
theorem slot_latest_wins (s : Slot) (fs : List DepthData) (h : fs ≠ []) :
    (take (depositAll s fs)).1 = some (fs.getLast h) ∧
    (take (take (depositAll s fs)).2).1 = none := by
  rw [depositAll_eq s fs h]
  exact ⟨rfl, rfl⟩

/-- Witness for C3: depositing frame A then frame B, the take observes
only B, and the following take observes nothing. -/
theorem slot_latest_wins_witness :
    (take (depositAll ⟨none, false⟩ [sampleFrame, sampleFrame2])).1 =
      some sampleFrame2 ∧
    (take (take (depositAll ⟨none, false⟩ [sampleFrame, sampleFrame2])).2).1 =
      none :=
  slot_latest_wins ⟨none, false⟩ [sampleFrame, sampleFrame2] (by decide)

/-! ### Claims about the liveness counters of the processing loop -/

/-- Counterexample to C7 as stated: the loop guard of line 689 uses `<=`,
so after 16 iterations from startup the counter reaches
`startup_ignore_iters + 1 = 16`, strictly exceeding
`startup_ignore_iters = 15`. -/
theorem iters_since_start_exceeds_threshold :
    startup_ignore_iters <
      (sysRun initState (List.replicate 16 Ev.tick)).iters_since_start := by
  decide

/-- The startup-counter update preserves the bound threshold + 1. -/
theorem stepStart_le (n : Nat) (h : n ≤ startup_ignore_iters + 1) :
    stepStart n ≤ startup_ignore_iters + 1 := by
  unfold stepStart
  split <;> omega

/-- One loop iteration updates `iters_since_start` exactly by `stepStart`,
in both the timeout and the frame-taken branch. -/
theorem processIter_start (st : ProcState) :
    (processIter st).1.iters_since_start = stepStart st.iters_since_start := by
  cases h : st.slot.newData <;> simp [processIter, take, h]

/-- The bound threshold + 1 on `iters_since_start` is invariant under any
interleaving of deposits and loop iterations. -/
theorem sysRun_start_le (st : ProcState) (evs : List Ev)
    (h : st.iters_since_start ≤ startup_ignore_iters + 1) :
    (sysRun st evs).iters_since_start ≤ startup_ignore_iters + 1 := by
  induction evs generalizing st with
  | nil => exact h
  | cons e evs ih =>
    have hstep : sysRun st (e :: evs) = sysRun (sysStep st e) evs := rfl
    rw [hstep]
    apply ih
    cases e with
    | dep f => exact h
    | tick =>
      rw [show sysStep st Ev.tick = (processIter st).1 from rfl, processIter_start]
      exact stepStart_le st.iters_since_start h

/-- Claim C7 (amended): `iters_since_start` saturates at
`startup_ignore_iters + 1`: starting from the initialized state it never
exceeds `startup_ignore_iters + 1` under any interleaving of deposits and
loop iterations, and the update leaves the value `startup_ignore_iters + 1`
fixed. -/
theorem iters_since_start_saturates :
    (∀ evs : List Ev,
      (sysRun initState evs).iters_since_start ≤ startup_ignore_iters + 1) ∧
    stepStart (startup_ignore_iters + 1) = startup_ignore_iters + 1 := by
  exact ⟨fun evs => sysRun_start_le initState evs (by decide), by decide⟩

/-- Claim C8: in every loop iteration, a timed-out wait (no new data)
increments `iters_since_data` by exactly one and processes no frame, while
a successful take resets `iters_since_data` to exactly zero and hands the
slot's frame to processing. -/
theorem processIter_data_counter (st : ProcState) :
    (st.slot.newData = false →
      (processIter st).1.iters_since_data = st.iters_since_data + 1 ∧
      (processIter st).2 = none) ∧
    (st.slot.newData = true →
      (processIter st).1.iters_since_data = 0 ∧
      (processIter st).2 = st.slot.data) := by
  constructor <;> intro h <;> simp [processIter, take, h]

/-- Witness for C8: a timeout from the initial state increments the
counter and processes nothing; a take after a deposit resets it to zero
and processes the deposited frame. -/
theorem processIter_data_counter_witness :
    ((processIter initState).1.iters_since_data =
      initState.iters_since_data + 1 ∧
     (processIter initState).2 = none) ∧
    ((processIter (sysStep initState (Ev.dep sampleFrame))).1.iters_since_data = 0 ∧
     (processIter (sysStep initState (Ev.dep sampleFrame))).2 =
       (sysStep initState (Ev.dep sampleFrame)).slot.data) :=
  ⟨(processIter_data_counter initState).1 rfl,
   (processIter_data_counter (sysStep initState (Ev.dep sampleFrame))).2 rfl⟩

/-! ### Claims about the Capture Activation Controller -/

/-- `clientsConnected` reports true exactly when some topic has a
subscriber. -/
theorem clientsConnected_eq_true_iff (subs : List Nat) :
    clientsConnected subs = true ↔ ∃ n ∈ subs, 0 < n := by
  unfold clientsConnected updateStatus
  simp [List.any_map, List.any_eq_true, Function.comp]

/-- `clientsConnected` reports false exactly when every topic has zero
subscribers. -/
theorem clientsConnected_eq_false_iff (subs : List Nat) :
    clientsConnected subs = false ↔ ∀ n ∈ subs, n = 0 := by
  unfold clientsConnected updateStatus
  simp [List.any_map, List.any_eq_false, Function.comp]

/-- Claim C5: on every subscription-status callback invocation, a
capture-start is requested iff some channel has a subscriber and the
sensor is not capturing; a capture-stop is requested iff no channel has a
subscriber and the sensor is capturing; in the remaining two cases no
request is issued, so the sensor's capturing state is left unchanged. -/
theorem topicStatus_capture_rule (subs : List Nat)
    (capturing startOk stopOk running : Bool) :
    ((∃ n ∈ subs, 0 < n) → capturing = false →
      (callbackTopicStatus subs capturing startOk stopOk running).requests =
        [CaptureReq.start]) ∧
    ((∀ n ∈ subs, n = 0) → capturing = true →
      (callbackTopicStatus subs capturing startOk stopOk running).requests =
        [CaptureReq.stop]) ∧
    ((∃ n ∈ subs, 0 < n) → capturing = true →
      (callbackTopicStatus subs capturing startOk stopOk running).requests = []) ∧
    ((∀ n ∈ subs, n = 0) → capturing = false →
      (callbackTopicStatus subs capturing startOk stopOk running).requests = []) := by
  refine ⟨fun hex hc => ?_, fun hall hc => ?_, fun hex hc => ?_, fun hall hc => ?_⟩
  · have h := (clientsConnected_eq_true_iff subs).2 hex
    simp [callbackTopicStatus, h, hc]
  · have h := (clientsConnected_eq_false_iff subs).2 hall
    simp [callbackTopicStatus, h, hc]
  · have h := (clientsConnected_eq_true_iff subs).2 hex
    simp [callbackTopicStatus, h, hc]
  · have h := (clientsConnected_eq_false_iff subs).2 hall
    simp [callbackTopicStatus, h, hc]

/-- Witness for C5: one subscriber on the camera-info topic while not
capturing requests a start; no subscribers while capturing requests a
stop. -/
theorem topicStatus_capture_rule_witness :
    (callbackTopicStatus [1, 0, 0, 0, 0] false true true true).requests =
      [CaptureReq.start] ∧
    (callbackTopicStatus [0, 0, 0, 0, 0] true true true true).requests =
      [CaptureReq.stop] :=
  ⟨(topicStatus_capture_rule [1, 0, 0, 0, 0] false true true true).1
      ⟨1, by decide, by decide⟩ rfl,
   (topicStatus_capture_rule [0, 0, 0, 0, 0] true true true true).2.1
      (by decide) rfl⟩

/-- Claim C9: whenever the sensor capability reports failure on the
capture-start or capture-stop request issued by the controller, the
running flag is cleared and a fatal shutdown is requested; exactly one
request is issued in that invocation (no local retry). -/
theorem capture_failure_fatal (subs : List Nat) (running startOk stopOk : Bool) :
    ((∃ n ∈ subs, 0 < n) →
      (callbackTopicStatus subs false false stopOk running).running = false ∧
      (callbackTopicStatus subs false false stopOk running).shutdownRequested = true ∧
      (callbackTopicStatus subs false false stopOk running).requests =
        [CaptureReq.start]) ∧
    ((∀ n ∈ subs, n = 0) →
      (callbackTopicStatus subs true startOk false running).running = false ∧
      (callbackTopicStatus subs true startOk false running).shutdownRequested = true ∧
      (callbackTopicStatus subs true startOk false running).requests =
        [CaptureReq.stop]) := by
  constructor
  · intro hex
    have h := (clientsConnected_eq_true_iff subs).2 hex
    simp [callbackTopicStatus, h]
  · intro hall
    have h := (clientsConnected_eq_false_iff subs).2 hall
    simp [callbackTopicStatus, h]

/-- Witness for C9: a failed start request and a failed stop request each
clear the running flag and request shutdown. -/
theorem capture_failure_fatal_witness :
    ((callbackTopicStatus [1, 0, 0, 0, 0] false false true true).running = false ∧
     (callbackTopicStatus [1, 0, 0, 0, 0] false false true true).shutdownRequested = true ∧
     (callbackTopicStatus [1, 0, 0, 0, 0] false false true true).requests =
       [CaptureReq.start]) ∧
    ((callbackTopicStatus [0, 0, 0, 0, 0] true true false true).running = false ∧
     (callbackTopicStatus [0, 0, 0, 0, 0] true true false true).shutdownRequested = true ∧
     (callbackTopicStatus [0, 0, 0, 0, 0] true true false true).requests =
       [CaptureReq.stop]) :=
  ⟨(capture_failure_fatal [1, 0, 0, 0, 0] true true true).1 ⟨1, by decide, by decide⟩,
   (capture_failure_fatal [0, 0, 0, 0, 0] true true true).2 (by decide)⟩

/-! ### Claim about the Runtime Configuration Store (exposure_time) -/

/-- Claim C6: a proposed exposure_time outside the cached [min, max]
limits leaves the committed value unchanged and reverts the caller's
proposal to the committed value; a proposal within bounds while the
exposure mode is automatic is likewise rejected and reverted. -/
theorem exposure_change_rejected (limits : Nat × Nat) (mode : ExposureMode)
    (deviceOk : Bool) (proposed committed : Nat) :
    ((proposed < limits.1 ∨ limits.2 < proposed) →
      callbackConfigExposureTime limits mode deviceOk proposed committed =
        (committed, committed)) ∧
    (limits.1 ≤ proposed → proposed ≤ limits.2 → mode = ExposureMode.automatic →
      callbackConfigExposureTime limits mode deviceOk proposed committed =
        (committed, committed)) := by
  constructor
  · intro h
    have hs : setExposure limits deviceOk proposed = false := by
      unfold setExposure
      rcases h with h | h <;> simp [h]
    simp [callbackConfigExposureTime, hs]
  · intro h1 h2 hm
    simp [callbackConfigExposureTime, hm]

/-- Witness for C6: with limits [50, 2000], proposing 3000 is reverted,
and proposing 1500 in automatic mode is reverted. -/
theorem exposure_change_rejected_witness :
    callbackConfigExposureTime (50, 2000) ExposureMode.manual true 3000 1000 =
      (1000, 1000) ∧
    callbackConfigExposureTime (50, 2000) ExposureMode.automatic true 1500 1000 =
      (1000, 1000) :=
  ⟨(exposure_change_rejected (50, 2000) ExposureMode.manual true 3000 1000).1
      (Or.inr (by decide)),
   (exposure_change_rejected (50, 2000) ExposureMode.automatic true 1500 1000).2
      (by decide) (by decide) rfl⟩

/-! ### Claim about the no-subscriber fast path of extractData -/

/-- Claim C10: when none of the four point-level channels is subscribed,
extractData returns after at most populating CameraInfo: the mono16,
depth, noise and cloud messages keep exactly their previous contents,
whatever the CameraInfo subscription state. -/
theorem extract_skips_unsubscribed (status : List Bool) (maxNoise : F)
    (ci : CameraInfoMsg) (tf : String) (d : DepthData) (msgs : Msgs)
    (h1 : statusAt status MONO_16 = false) (h2 : statusAt status DEPTH = false)
    (h3 : statusAt status NOISE = false) (h4 : statusAt status CLOUD = false) :
    (extractData status maxNoise ci tf d msgs).mono16 = msgs.mono16 ∧
    (extractData status maxNoise ci tf d msgs).depth = msgs.depth ∧
    (extractData status maxNoise ci tf d msgs).noise = msgs.noise ∧
    (extractData status maxNoise ci tf d msgs).cloud = msgs.cloud := by
  cases hci : statusAt status CAMERA_INFO <;>
    simp [extractData, h1, h2, h3, h4, hci]

/-- Witness for C10: CameraInfo subscribed but no point-level channel:
the four point-level messages are returned untouched. -/
theorem extract_skips_unsubscribed_witness :
    (extractData [true, false, false, false, false] (F.val 7) sampleCI
      "pico_flexx" sampleFrame sampleMsgs).mono16 = sampleMsgs.mono16 ∧
    (extractData [true, false, false, false, false] (F.val 7) sampleCI
      "pico_flexx" sampleFrame sampleMsgs).depth = sampleMsgs.depth ∧
    (extractData [true, false, false, false, false] (F.val 7) sampleCI
      "pico_flexx" sampleFrame sampleMsgs).noise = sampleMsgs.noise ∧
    (extractData [true, false, false, false, false] (F.val 7) sampleCI
      "pico_flexx" sampleFrame sampleMsgs).cloud = sampleMsgs.cloud :=
  extract_skips_unsubscribed [true, false, false, false, false] (F.val 7)
    sampleCI "pico_flexx" sampleFrame sampleMsgs rfl rfl rfl rfl

end PicoFlexx
